import Mathlib

/-!
Verification of the hotel-booking notification service.

The service consists of three JavaScript modules:
* a booking POST handler (`src/app/api/booking/route.js`) that validates a
  JSON payload against a zod schema, resolves a telegram route, sends a chat
  message and then a guest email, and returns `{ok:true}` or
  `{ok:false, error}` with HTTP status 400;
* a telegram module (`src/unnamed/part_001`) with `parseChatMap`,
  `resolveTelegramRoute` and `telegramSendText`;
* an email module (`src/unnamed/part_000`) with `createTransport` and
  `sendGuestEmail`.

The embedding below is a shallow one: environment variables become an
explicit configuration record of `Option String` fields (absent variable =
`none`), the module-level `CHAT_MAP` becomes an explicit argument, network
I/O is parameterised by the response the remote end would give, and the
side effects of a request (the chat-API call and the mail handed to the
SMTP transport) are returned as an explicit event list.
-/

set_option autoImplicit false

namespace HotelBooking

/-- JavaScript numbers as they arise in this code base: every value produced
here is either an integer or `NaN` (`Number` applied to a non-numeric
string). -/
inductive JsNum where
  | nan
  | num (n : Int)
  deriving DecidableEq, Repr

/-- JavaScript `String.prototype.trim()` (the whitespace classes that occur
in this code base's inputs). -/
def jsTrim (s : String) : String :=
  ⟨((s.toList.dropWhile Char.isWhitespace).reverse.dropWhile Char.isWhitespace).reverse⟩

/-- JavaScript `String.prototype.split(sep)` for a one-character separator,
on the underlying character list: `"".split(sep)` is `[""]`, and a
separator at either end contributes an empty piece. -/
def splitCharList (sep : Char) : List Char → List (List Char)
  | [] => [[]]
  | c :: rest =>
    let r := splitCharList sep rest
    if c = sep then [] :: r
    else
      match r with
      | [] => [[c]]
      | h :: t => (c :: h) :: t

/-- `s.split(sep)` for a one-character separator. -/
def jsSplit (s : String) (sep : Char) : List String :=
  (splitCharList sep s.toList).map (fun cs => ⟨cs⟩)

/-- `s.includes(c)` for a one-character needle. -/
def jsIncludes (s : String) (c : Char) : Bool :=
  s.toList.any (fun d => d = c)

/-- The numeric value of a non-empty all-digit character list. -/
def digitsToNat : List Char → Option Nat
  | [] => none
  | cs =>
    if cs.all Char.isDigit then
      some (cs.foldl (fun n c => n * 10 + (c.toNat - 48)) 0)
    else
      none

/-- Models JavaScript `Number(s)` on strings: surrounding whitespace is
ignored, the empty string is `0`, an optionally signed decimal integer
string is its value, and anything else is `NaN`.  (Fractional, hexadecimal
and exponent forms do not occur in this code base's configuration values
and are mapped to `NaN`.) -/
def jsNumber (s : String) : JsNum :=
  match (jsTrim s).toList with
  | [] => .num 0
  | '-' :: rest =>
    match digitsToNat rest with
    | some n => .num (-(n : Int))
    | none => .nan
  | '+' :: rest =>
    match digitsToNat rest with
    | some n => .num (n : Int)
    | none => .nan
  | cs =>
    match digitsToNat cs with
    | some n => .num (n : Int)
    | none => .nan

/-- JavaScript truthiness of a number: `0` and `NaN` are falsy. -/
def JsNum.truthy : JsNum → Bool
  | .nan => false
  | .num n => n ≠ 0

/-- JavaScript truthiness of a possibly-undefined string: `undefined` and
`""` are falsy. -/
def strTruthy : Option String → Bool
  | none => false
  | some s => s ≠ ""

/-- `Number(x)` for a possibly-undefined string: `Number(undefined)` is
`NaN`. -/
def jsNumberOfOpt : Option String → JsNum
  | none => .nan
  | some s => jsNumber s

/-! ### The telegram module (`src/unnamed/part_001`) -/

/-- The own properties of a JavaScript object literal used as a dictionary,
modelled as an association list with assign-overwrites semantics.  A
property read on such an object also consults the prototype chain; see
`getProp`. -/
abbrev ChatMap := List (String × JsNum)

/-- Own-property lookup: `some` the stored value, `none` when the object
itself has no such key. -/
def mapFind : ChatMap → String → Option JsNum
  | [], _ => none
  | (k, v) :: rest, key => if k = key then some v else mapFind rest key

/-- Property assignment `m[k] = v`: overwrite an existing own key in place,
otherwise append.  Assigning the key "__proto__" invokes the inherited
setter of `Object.prototype`, which ignores a non-object value such as a
number and creates no own property, so the object is left unchanged. -/
def mapAssign (m : ChatMap) (k : String) (v : JsNum) : ChatMap :=
  if k = "__proto__" then m
  else if m.any (fun p => p.1 = k) then
    m.map (fun p => if p.1 = k then (k, v) else p)
  else
    m ++ [(k, v)]

/-- The property keys a plain object literal inherits from
`Object.prototype`: its methods, and the "__proto__" accessor.  Reading any
of them on an object with no own property of that name yields a function
(or, for "__proto__", the prototype object) — a truthy value, never
`undefined`. -/
def objectPrototypeKeys : List String :=
  ["constructor", "hasOwnProperty", "isPrototypeOf", "propertyIsEnumerable",
   "toLocaleString", "toString", "valueOf",
   "__defineGetter__", "__defineSetter__", "__lookupGetter__",
   "__lookupSetter__", "__proto__"]

/-- A value the chat-id position can hold at run time: a number (the
stored or defaulted chat id), or a member inherited from
`Object.prototype` (a builtin function, or the prototype object itself),
which is always truthy. -/
inductive ChatIdVal where
  | num (v : JsNum)
  | protoMember (name : String)
  deriving DecidableEq, Repr

/-- JavaScript truthiness of a chat-id value: numbers by `JsNum.truthy`,
inherited `Object.prototype` members always truthy. -/
def ChatIdVal.truthy : ChatIdVal → Bool
  | .num v => v.truthy
  | .protoMember _ => true

/-- The property read `m[k]` on a plain object literal: an own entry
shadows the prototype; failing that, a key naming an `Object.prototype`
member yields that inherited member; otherwise the read is `undefined`
(`none`). -/
def getProp (m : ChatMap) (k : String) : Option ChatIdVal :=
  match mapFind m k with
  | some v => some (.num v)
  | none =>
    if objectPrototypeKeys.contains k then some (.protoMember k) else none

/-- One iteration of the `for` loop of `parseChatMap`: trim the
comma-separated part; skip it when it is empty or has no `:`; otherwise
split at `:` and assign `Number(chat.trim())` to key `code.trim()`. -/
def chatMapStep (m : ChatMap) (part : String) : ChatMap :=
  let p := jsTrim part
  if p = "" || !(jsIncludes p ':') then m
  else
    let ps := jsSplit p ':'
    mapAssign m (jsTrim (ps.getD 0 "")) (jsNumber (jsTrim (ps.getD 1 "")))

/-- `parseChatMap` of `src/unnamed/part_001`, with the raw configuration
string `process.env.TELEGRAM_PROPERTY_CHAT_MAP || ""` passed explicitly. -/
def parseChatMap (raw : String) : ChatMap :=
  (jsSplit raw ',').foldl chatMapStep []

/-- The telegram-related environment variables; an unset variable is
`none`. -/
structure TgEnv where
  propertyChatMap : Option String
  defaultBotToken : Option String
  defaultChatId : Option String
  consolidatedBotToken : Option String
  consolidatedChatId : Option String
  deriving DecidableEq, Repr

/-- The chat map the module computes once at load time:
`parseChatMap(process.env.TELEGRAM_PROPERTY_CHAT_MAP || "")`. -/
def chatMapOf (cfg : TgEnv) : ChatMap :=
  parseChatMap (cfg.propertyChatMap.getD "")

/-- The `{botToken, chatId}` record returned by the resolver. -/
structure TelegramRoute where
  botToken : Option String
  chatId : ChatIdVal
  deriving DecidableEq, Repr

/-- `Number(process.env.TELEGRAM_DEFAULT_CHAT_ID || 0)`: an unset or empty
variable gives `Number(0) = 0`, otherwise `Number` of the string. -/
def defaultChatNum (cfg : TgEnv) : JsNum :=
  match cfg.defaultChatId with
  | none => .num 0
  | some s => if s = "" then .num 0 else jsNumber s

/-- `resolveTelegramRoute` of `src/unnamed/part_001`.  The module-level
`CHAT_MAP` is passed explicitly as `m` (the handler passes `chatMapOf cfg`).
The non-"ALL" chat id is `CHAT_MAP[propertyCode] ||
Number(process.env.TELEGRAM_DEFAULT_CHAT_ID || 0)`: the property read is
kept when truthy, and the JavaScript `||` falls through to the default on
`0`/`NaN` and on an absent key.  The read goes through the prototype
chain, so a code naming an `Object.prototype` member yields that inherited
truthy member as the chat id. -/
def resolveTelegramRoute (cfg : TgEnv) (m : ChatMap) (propertyCode : String) :
    TelegramRoute :=
  if propertyCode = "ALL" then
    { botToken := cfg.consolidatedBotToken
      chatId := .num (jsNumberOfOpt cfg.consolidatedChatId) }
  else
    { botToken := cfg.defaultBotToken
      chatId :=
        match getProp m propertyCode with
        | some v => if v.truthy then v else .num (defaultChatNum cfg)
        | none => .num (defaultChatNum cfg) }

/-- The JSON body of a telegram API response, as far as `telegramSendText`
inspects it: an optional boolean `ok` field and an optional string
`description` field (an absent field is `none`). -/
structure TgBody where
  ok : Option Bool
  description : Option String
  deriving DecidableEq, Repr

/-- The HTTP response of the telegram API call: status code, status text,
and the parsed JSON body (`none` when the body fails to parse, in which
case `.catch(() => ({}))` substitutes the empty object). -/
structure TgResponse where
  status : Nat
  statusText : String
  body : Option TgBody
  deriving DecidableEq, Repr

/-- `Response.ok` of the fetch API: status in the range 200–299. -/
def respOk (r : TgResponse) : Bool :=
  200 ≤ r.status && r.status ≤ 299

/-- `data?.description || resp.statusText`: an absent or empty description
falls through to the status text. -/
def descOrStatusText (r : TgResponse) : String :=
  match (r.body.getD { ok := none, description := none }).description with
  | some d => if d = "" then r.statusText else d
  | none => r.statusText

/-- `telegramSendText` of `src/unnamed/part_001`, parameterised by the HTTP
response the telegram API gives to the POST.  A body that fails to parse
becomes the empty object; the call throws when the response is not ok or
the body's `ok` field is not literally `true`, with message
`Telegram failed: <status> <description-or-statusText>`; otherwise it
returns the parsed body. -/
def telegramSendText (resp : TgResponse) : Except String TgBody :=
  let data := resp.body.getD { ok := none, description := none }
  if !(respOk resp) || data.ok != some true then
    .error ("Telegram failed: " ++ toString resp.status ++ " " ++ descOrStatusText resp)
  else
    .ok data

/-! ### The email module (`src/unnamed/part_000`) -/

/-- The SMTP-related environment variables; an unset variable is `none`. -/
structure SmtpEnv where
  smtpHost : Option String
  smtpPort : Option String
  smtpUser : Option String
  smtpPass : Option String
  smtpFrom : Option String
  deriving DecidableEq, Repr

/-- The options record handed to `nodemailer.createTransport`. -/
structure Transport where
  host : String
  port : JsNum
  secure : Bool
  authUser : String
  authPass : String
  deriving DecidableEq, Repr

/-- `const port = Number(process.env.SMTP_PORT || 587)`: an unset or empty
variable gives `Number(587) = 587`, otherwise `Number` of the string. -/
def smtpPortNum (env : SmtpEnv) : JsNum :=
  match env.smtpPort with
  | none => .num 587
  | some s => if s = "" then .num 587 else jsNumber s

/-- `createTransport` of `src/unnamed/part_000`:
`port = Number(process.env.SMTP_PORT || 587)`; throws `SMTP env missing`
when host, user or pass is falsy (unset or empty); otherwise builds the
transport with `secure: port === 465`. -/
def createTransport (env : SmtpEnv) : Except String Transport :=
  if !(strTruthy env.smtpHost) || !(strTruthy env.smtpUser) || !(strTruthy env.smtpPass) then
    .error "SMTP env missing"
  else
    .ok { host := env.smtpHost.getD ""
          port := smtpPortNum env
          secure := smtpPortNum env = .num 465
          authUser := env.smtpUser.getD ""
          authPass := env.smtpPass.getD "" }

/-- The argument object of a `sendGuestEmail` call, with every property the
two call shapes mention; a property the caller does not supply is `none`
(JavaScript `undefined`). -/
structure GuestEmailArgs where
  toAddr : Option String
  subject : Option String
  html : Option String
  text : Option String
  guestName : Option String
  propertyCode : Option String
  roomId : Option String
  checkIn : Option String
  checkOut : Option String
  deriving DecidableEq, Repr

/-- The message object handed to `transporter.sendMail`. -/
structure MailMessage where
  fromAddr : Option String
  toAddr : Option String
  subject : Option String
  html : Option String
  text : Option String
  deriving DecidableEq, Repr

/-- `const from = process.env.SMTP_FROM || process.env.SMTP_USER`: a falsy
(unset or empty) SMTP_FROM falls through to the SMTP user identity. -/
def smtpFromAddr (env : SmtpEnv) : Option String :=
  if strTruthy env.smtpFrom then env.smtpFrom else env.smtpUser

/-- `sendGuestEmail` of `src/unnamed/part_000`: destructures only
`{to, subject, html, text}` from its argument, computes
`from = process.env.SMTP_FROM || process.env.SMTP_USER`, constructs the
transport (which may throw), and hands the message to
`transporter.sendMail`.  The SMTP delivery itself is an external
collaborator; the model returns the message handed to the transport. -/
def sendGuestEmail (env : SmtpEnv) (args : GuestEmailArgs) :
    Except String MailMessage :=
  match createTransport env with
  | .error e => .error e
  | .ok _ =>
      .ok { fromAddr := smtpFromAddr env
            toAddr := args.toAddr
            subject := args.subject
            html := args.html
            text := args.text }

/-! ### The booking POST handler (`src/app/api/booking/route.js`) -/

/-- The raw JSON payload of a booking request: each schema field is either
absent (`none`) or a string.  (The zod schema rejects non-string values;
non-string JSON values are outside the model.) -/
structure RawPayload where
  propertyCode : Option String
  roomId : Option String
  guestName : Option String
  phone : Option String
  email : Option String
  checkIn : Option String
  checkOut : Option String
  note : Option String
  deriving DecidableEq, Repr

/-- A payload that passed `BookingSchema.parse`: all required fields
present and constrained, `note` defaulted to `""`. -/
structure Booking where
  propertyCode : String
  roomId : String
  guestName : String
  phone : String
  email : String
  checkIn : String
  checkOut : String
  note : String
  deriving DecidableEq, Repr

/-- ASCII letter or digit. -/
def isAlnum (c : Char) : Bool := c.isAlpha || c.isDigit

/-- A character allowed anywhere in the local part of a zod email:
letters, digits, `_`, apostrophe, `+`, `-`, `.`. -/
def localChar (c : Char) : Bool :=
  isAlnum c || c = '_' || c = Char.ofNat 39 || c = '+' || c = '-' || c = '.'

/-- A character allowed as the last character of the local part (no dot,
no apostrophe). -/
def localLastChar (c : Char) : Bool :=
  isAlnum c || c = '_' || c = '+' || c = '-'

/-- A non-final domain label: `[A-Za-z0-9][A-Za-z0-9-]*`. -/
def domainLabelOk (s : String) : Bool :=
  match s.toList with
  | [] => false
  | c :: rest => isAlnum c && rest.all (fun d => isAlnum d || d = '-')

/-- The final domain label: at least two letters. -/
def tldOk (s : String) : Bool :=
  s.length ≥ 2 && s.toList.all (fun c => c.isAlpha)

/-- Two consecutive dots somewhere in the character list. -/
def hasDoubleDot : List Char → Bool
  | [] => false
  | [_] => false
  | c :: d :: rest => (c = '.' && d = '.') || hasDoubleDot (d :: rest)

/-- The local part of a zod email: non-empty, every character in the local
class, last character in the restricted class. -/
def localPartOk (s : String) : Bool :=
  match s.toList.reverse with
  | [] => false
  | last :: _ => s.toList.all localChar && localLastChar last

/-- The domain of a zod email: `([A-Za-z0-9][A-Za-z0-9-]*\.)+[A-Za-z]{2,}`,
i.e. at least two dot-separated labels, all but the last alphanumeric-led,
the last purely alphabetic of length at least two. -/
def domainOk (s : String) : Bool :=
  let labels := jsSplit s '.'
  labels.length ≥ 2 && labels.dropLast.all domainLabelOk && tldOk (labels.getLastD "")

/-- `z.string().email()`: a Lean rendering of zod's email regular
expression — no leading dot, no two consecutive dots, exactly one `@`
separating a valid local part from a valid domain. -/
def zodEmailCheck (s : String) : Bool :=
  (match s.toList with
   | '.' :: _ => false
   | _ => true) &&
  !(hasDoubleDot s.toList) &&
  (match jsSplit s '@' with
   | [loc, dom] => localPartOk loc && domainOk dom
   | _ => false)

/-- `BookingSchema.parse` of `src/app/api/booking/route.js`: every required
field present and satisfying its minimum-length/format constraint, `note`
optional with default `""`.  (zod aggregates all issues into one thrown
`ZodError`; the model reports the first failing field, and renders the
error message abstractly per field.) -/
def validateBooking (p : RawPayload) : Except String Booking :=
  match p.propertyCode with
  | none => .error "propertyCode: Required"
  | some propertyCode =>
  if propertyCode.length < 3 then .error "propertyCode: too short" else
  match p.roomId with
  | none => .error "roomId: Required"
  | some roomId =>
  if roomId.length < 1 then .error "roomId: too short" else
  match p.guestName with
  | none => .error "guestName: Required"
  | some guestName =>
  if guestName.length < 2 then .error "guestName: too short" else
  match p.phone with
  | none => .error "phone: Required"
  | some phone =>
  if phone.length < 6 then .error "phone: too short" else
  match p.email with
  | none => .error "email: Required"
  | some email =>
  if !(zodEmailCheck email) then .error "email: Invalid email" else
  match p.checkIn with
  | none => .error "checkIn: Required"
  | some checkIn =>
  if checkIn.length < 8 then .error "checkIn: too short" else
  match p.checkOut with
  | none => .error "checkOut: Required"
  | some checkOut =>
  if checkOut.length < 8 then .error "checkOut: too short" else
  .ok { propertyCode := propertyCode
        roomId := roomId
        guestName := guestName
        phone := phone
        email := email
        checkIn := checkIn
        checkOut := checkOut
        note := p.note.getD "" }

/-- A required field is present and satisfies its constraint. -/
def requiredOk (o : Option String) (f : String → Bool) : Bool :=
  match o with
  | none => false
  | some s => f s

/-- All schema constraints hold of the raw payload: every required field
present with its minimum length, the email in zod email format.  The
negation is exactly "missing a required field or violating a
minimum-length/format constraint". -/
def payloadValid (p : RawPayload) : Bool :=
  requiredOk p.propertyCode (fun s => s.length ≥ 3) &&
  requiredOk p.roomId (fun s => s.length ≥ 1) &&
  requiredOk p.guestName (fun s => s.length ≥ 2) &&
  requiredOk p.phone (fun s => s.length ≥ 6) &&
  requiredOk p.email zodEmailCheck &&
  requiredOk p.checkIn (fun s => s.length ≥ 8) &&
  requiredOk p.checkOut (fun s => s.length ≥ 8)

/-- The multi-line HTML message body the handler builds: the fixed lines,
a `Note` line only when the note is non-empty (`data.note ? ... : ''`),
empty strings removed by `.filter(Boolean)`, joined with newlines. -/
def buildMessage (d : Booking) : String :=
  let parts : List String :=
    [ "<b>NEW BOOKING REQUEST</b>",
      "<b>Property:</b> " ++ d.propertyCode,
      "<b>Room:</b> " ++ d.roomId,
      "<b>Name:</b> " ++ d.guestName,
      "<b>Phone:</b> " ++ d.phone,
      "<b>Email:</b> " ++ d.email,
      "<b>Dates:</b> " ++ d.checkIn ++ " → " ++ d.checkOut,
      if d.note = "" then "" else "<b>Note:</b> " ++ d.note ]
  String.intercalate "\n" (parts.filter (fun s => s ≠ ""))

/-- The argument object the handler passes to `sendGuestEmail`: exactly the
six properties of the object literal in `route.js`; `subject`, `html` and
`text` are absent. -/
def bookingEmailArgs (d : Booking) : GuestEmailArgs :=
  { toAddr := some d.email
    subject := none
    html := none
    text := none
    guestName := some d.guestName
    propertyCode := some d.propertyCode
    roomId := some d.roomId
    checkIn := some d.checkIn
    checkOut := some d.checkOut }

/-- The observable outbound side effects of one request: the chat-API call
(with the resolved route and the message text) and the mail message handed
to the SMTP transport. -/
inductive Event where
  | chat (route : TelegramRoute) (text : String)
  | email (m : MailMessage)
  deriving DecidableEq, Repr

/-- Whether an event is the email send. -/
def Event.isEmail : Event → Bool
  | .email _ => true
  | _ => false

/-- The JSON response of the POST handler together with its HTTP status. -/
structure PostResponse where
  ok : Bool
  error : Option String
  status : Nat
  deriving DecidableEq, Repr

/-- `POST` of `src/app/api/booking/route.js`.  The function is
parameterised by the environment (`tgCfg`, `smtp`) and by the HTTP response
`tg` the telegram API would give to the chat send.  It validates the
payload, resolves the route against the module-level chat map, sends the
chat message, then sends the guest email; any thrown error is caught and
returned as `{ok:false, error}` with status 400; full success returns
`{ok:true}` (status 200).  The returned list records the outbound calls
that were made.

The handler imports its chat send from the telegram module under the name
`sendTelegramMessage`; the telegram module's send function in the provided
sources is `telegramSendText`, which the specification identifies as the
handler's chat sender, invoked with the resolved route's credentials and
the message text.  The embedding wires the call accordingly. -/
def POST (tgCfg : TgEnv) (smtp : SmtpEnv) (tg : TgResponse) (p : RawPayload) :
    PostResponse × List Event :=
  match validateBooking p with
  | .error e => ({ ok := false, error := some e, status := 400 }, [])
  | .ok data =>
    let route := resolveTelegramRoute tgCfg (chatMapOf tgCfg) data.propertyCode
    let msg := buildMessage data
    match telegramSendText tg with
    | .error e =>
        ({ ok := false, error := some e, status := 400 }, [.chat route msg])
    | .ok _ =>
        match sendGuestEmail smtp (bookingEmailArgs data) with
        | .error e =>
            ({ ok := false, error := some e, status := 400 }, [.chat route msg])
        | .ok mail =>
            ({ ok := true, error := none, status := 200 },
             [.chat route msg, .email mail])

/-! ### Helper lemmas -/

theorem payloadValid_of_ok (p : RawPayload) (b : Booking)
    (h : validateBooking p = .ok b) : payloadValid p = true := by
  unfold validateBooking at h
  repeat' split at h
  all_goals simp_all [payloadValid, requiredOk, Nat.not_lt, Nat.one_le_iff_ne_zero]

theorem validateBooking_error_of_invalid (p : RawPayload)
    (h : payloadValid p = false) : ∃ e, validateBooking p = .error e := by
  cases hv : validateBooking p with
  | error e => exact ⟨e, rfl⟩
  | ok b => rw [payloadValid_of_ok p b hv] at h; cases h

/-! ### Claim theorems -/

/-- C1: for every payload that is missing a required BookingRequest field or
violates a minimum-length/format constraint, the POST handler returns a
failure result (HTTP 400, a 4xx status, carrying the validation error
message) and performs no notification side effects: the event list is empty,
so neither the chat send nor the email send is invoked. -/
theorem POST_invalid_payload_no_sends (tgCfg : TgEnv) (smtp : SmtpEnv)
    (tg : TgResponse) (p : RawPayload) (h : payloadValid p = false) :
    ∃ e, validateBooking p = .error e ∧
      POST tgCfg smtp tg p = ({ ok := false, error := some e, status := 400 }, []) := by
  obtain ⟨e, he⟩ := validateBooking_error_of_invalid p h
  refine ⟨e, he, ?_⟩
  unfold POST
  rw [he]

/-- Witness for C1 at a concrete input: a payload with no propertyCode is
rejected with status 400 and an empty event list. -/
theorem POST_invalid_payload_no_sends_witness :
    ∃ e,
      validateBooking
          ⟨none, some "101", some "Jane Doe", some "+15551234567",
            some "jane@example.com", some "2024-06-01", some "2024-06-05", none⟩ =
        .error e ∧
      POST ⟨none, none, none, none, none⟩ ⟨none, none, none, none, none⟩
          ⟨200, "OK", some ⟨some true, none⟩⟩
          ⟨none, some "101", some "Jane Doe", some "+15551234567",
            some "jane@example.com", some "2024-06-01", some "2024-06-05", none⟩ =
        ({ ok := false, error := some e, status := 400 }, []) :=
  POST_invalid_payload_no_sends ⟨none, none, none, none, none⟩
    ⟨none, none, none, none, none⟩ ⟨200, "OK", some ⟨some true, none⟩⟩
    ⟨none, some "101", some "Jane Doe", some "+15551234567",
      some "jane@example.com", some "2024-06-01", some "2024-06-05", none⟩
    (by decide)

/-- C2: for a well-formed payload, if the chat-bot API responds with HTTP
200 and body {ok:false, description:"chat not found"}, the handler returns
{ok:false, error:"Telegram failed: 200 chat not found"} (status 400) and
the email send is never invoked: the chat send's thrown error
short-circuits the sequence, so no email event occurs. -/
theorem POST_telegram_failure_short_circuits (tgCfg : TgEnv) (smtp : SmtpEnv)
    (p : RawPayload) (b : Booking) (h : validateBooking p = .ok b) :
    (POST tgCfg smtp ⟨200, "OK", some ⟨some false, some "chat not found"⟩⟩ p).1 =
      { ok := false, error := some "Telegram failed: 200 chat not found", status := 400 } ∧
    ∀ ev ∈ (POST tgCfg smtp ⟨200, "OK", some ⟨some false, some "chat not found"⟩⟩ p).2,
      ev.isEmail = false := by
  have ht : telegramSendText ⟨200, "OK", some ⟨some false, some "chat not found"⟩⟩ =
      .error "Telegram failed: 200 chat not found" := rfl
  unfold POST
  rw [h, ht]
  refine ⟨rfl, ?_⟩
  intro ev hev
  simp only [List.mem_singleton] at hev
  rw [hev]
  rfl

/-- Witness for C2 at a concrete well-formed payload. -/
theorem POST_telegram_failure_short_circuits_witness :
    (POST ⟨some "B2X:555", some "TOK", some "777", none, none⟩
        ⟨some "smtp.example.com", none, some "user", some "pass", none⟩
        ⟨200, "OK", some ⟨some false, some "chat not found"⟩⟩
        ⟨some "B2X", some "101", some "Jane Doe", some "+15551234567",
          some "jane@example.com", some "2024-06-01", some "2024-06-05", some ""⟩).1 =
      { ok := false, error := some "Telegram failed: 200 chat not found", status := 400 } ∧
    ∀ ev ∈ (POST ⟨some "B2X:555", some "TOK", some "777", none, none⟩
        ⟨some "smtp.example.com", none, some "user", some "pass", none⟩
        ⟨200, "OK", some ⟨some false, some "chat not found"⟩⟩
        ⟨some "B2X", some "101", some "Jane Doe", some "+15551234567",
          some "jane@example.com", some "2024-06-01", some "2024-06-05", some ""⟩).2,
      ev.isEmail = false :=
  POST_telegram_failure_short_circuits
    ⟨some "B2X:555", some "TOK", some "777", none, none⟩
    ⟨some "smtp.example.com", none, some "user", some "pass", none⟩
    ⟨some "B2X", some "101", some "Jane Doe", some "+15551234567",
      some "jane@example.com", some "2024-06-01", some "2024-06-05", some ""⟩
    ⟨"B2X", "101", "Jane Doe", "+15551234567", "jane@example.com",
      "2024-06-01", "2024-06-05", ""⟩
    rfl

/-- C3: for every configuration and every chat map, the resolver applied to
the sentinel code "ALL" returns the consolidated bot token paired with the
consolidated chat id, and the result does not depend on the per-property
map. -/
theorem resolveTelegramRoute_all_consolidated (cfg : TgEnv) (m m' : ChatMap) :
    resolveTelegramRoute cfg m "ALL" =
      { botToken := cfg.consolidatedBotToken
        chatId := .num (jsNumberOfOpt cfg.consolidatedChatId) } ∧
    resolveTelegramRoute cfg m "ALL" = resolveTelegramRoute cfg m' "ALL" := by
  constructor <;> simp [resolveTelegramRoute]

/-- Counterexample to C4 as stated: with configuration map parsed from
"A:0" the code "A" is present as a key, mapped to 0, yet the resolver
returns the default chat id 777, not the mapped 0 — the JavaScript || falls
through on a falsy (zero) stored value. -/
theorem resolveTelegramRoute_mapped_zero_counterexample :
    mapFind (parseChatMap "A:0") "A" = some (JsNum.num 0) ∧
    ("A" : String) ≠ "ALL" ∧
    (resolveTelegramRoute ⟨some "A:0", some "TOK", some "777", none, none⟩
        (parseChatMap "A:0") "A").chatId ≠ ChatIdVal.num (JsNum.num 0) := by
  decide

/-- C4 (amended): for every propertyCode other than "ALL" that is present
as a key in the configuration map with a truthy chat id (a nonzero number,
not NaN), the resolver returns that mapped chat id paired with the default
bot token; a falsy mapped value (0 or NaN) instead falls back to the
default chat id. -/
theorem resolveTelegramRoute_mapped_truthy (cfg : TgEnv) (m : ChatMap)
    (code : String) (v : JsNum) (hall : code ≠ "ALL")
    (hfind : mapFind m code = some v) (hv : v.truthy = true) :
    resolveTelegramRoute cfg m code =
      { botToken := cfg.defaultBotToken, chatId := .num v } := by
  simp [resolveTelegramRoute, getProp, ChatIdVal.truthy, hall, hfind, hv]

/-- Witness for the amended C4: code "A" mapped to 555 resolves to chat id
555 with the default bot token. -/
theorem resolveTelegramRoute_mapped_truthy_witness :
    resolveTelegramRoute ⟨some "A:555", some "TOK", some "777", none, none⟩
        (parseChatMap "A:555") "A" =
      { botToken := some "TOK", chatId := .num (JsNum.num 555) } :=
  resolveTelegramRoute_mapped_truthy
    ⟨some "A:555", some "TOK", some "777", none, none⟩ (parseChatMap "A:555")
    "A" (JsNum.num 555) (by decide) (by decide) (by decide)

/-- Counterexample to C5 as stated: the code "toString" (length 8, a legal
propertyCode) is absent from the map parsed from "A:555" and differs from
"ALL", yet the resolver does not return the default chat id 777: the
property read `CHAT_MAP["toString"]` finds the inherited, truthy
`Object.prototype.toString` function, so the JavaScript || keeps it and it
becomes the chat id. -/
theorem resolveTelegramRoute_proto_counterexample :
    mapFind (parseChatMap "A:555") "toString" = none ∧
    ("toString" : String) ≠ "ALL" ∧
    (resolveTelegramRoute ⟨some "A:555", some "TOK", some "777", none, none⟩
        (parseChatMap "A:555") "toString").chatId =
      ChatIdVal.protoMember "toString" ∧
    (resolveTelegramRoute ⟨some "A:555", some "TOK", some "777", none, none⟩
        (parseChatMap "A:555") "toString").chatId ≠
      ChatIdVal.num
        (defaultChatNum ⟨some "A:555", some "TOK", some "777", none, none⟩) := by
  decide

/-- C5 (amended): for every propertyCode other than "ALL" that is absent
from the configuration map and does not name an `Object.prototype` member,
the resolver returns the default bot token together with the default chat
id — the numeric value of the configured default, or 0 when the default is
unset — and no error is possible: the resolver is a total function into
TelegramRoute.  For an absent code that does name an `Object.prototype`
member (such as "toString"), the inherited truthy member is returned as
the chat id instead of the default. -/
theorem resolveTelegramRoute_absent_defaults (cfg : TgEnv) (m : ChatMap)
    (code : String) (hall : code ≠ "ALL") (hfind : mapFind m code = none)
    (hproto : objectPrototypeKeys.contains code = false) :
    resolveTelegramRoute cfg m code =
      { botToken := cfg.defaultBotToken, chatId := .num (defaultChatNum cfg) } ∧
    (cfg.defaultChatId = none → defaultChatNum cfg = JsNum.num 0) := by
  have hmem : code ∉ objectPrototypeKeys := by simpa using hproto
  constructor
  · simp [resolveTelegramRoute, getProp, hall, hfind, hmem]
  · intro h
    simp [defaultChatNum, h]

/-- Witness for the amended C5: an unmapped, non-prototype code resolves to
chat id 0 when no default chat id is configured. -/
theorem resolveTelegramRoute_absent_defaults_witness :
    resolveTelegramRoute ⟨some "A:555", some "TOK", none, none, none⟩
        (parseChatMap "A:555") "ZZZ" =
      { botToken := some "TOK"
        chatId := .num (defaultChatNum ⟨some "A:555", some "TOK", none, none, none⟩) } ∧
    ((⟨some "A:555", some "TOK", none, none, none⟩ : TgEnv).defaultChatId = none →
      defaultChatNum ⟨some "A:555", some "TOK", none, none, none⟩ = JsNum.num 0) :=
  resolveTelegramRoute_absent_defaults
    ⟨some "A:555", some "TOK", none, none, none⟩ (parseChatMap "A:555") "ZZZ"
    (by decide) (by decide) (by decide)

/-- C6: the configuration string "A:111, B:222" parses to the map
{A:111, B:222}; and a comma-separated entry that is empty after trimming,
or contains no colon, contributes nothing to the map (the loop step leaves
the map unchanged) and causes no error. -/
theorem parseChatMap_example_and_skip :
    parseChatMap "A:111, B:222" = [("A", JsNum.num 111), ("B", JsNum.num 222)] ∧
    ∀ (m : ChatMap) (part : String),
      (jsTrim part = "" ∨ jsIncludes (jsTrim part) ':' = false) →
      chatMapStep m part = m := by
  constructor
  · decide
  · intro m part h
    rcases h with h | h <;> simp [chatMapStep, h]

/-- Witness for C6: the round-trip map, and two malformed entries (blank,
and missing the colon) that leave the map unchanged. -/
theorem parseChatMap_example_and_skip_witness :
    parseChatMap "A:111, B:222" = [("A", JsNum.num 111), ("B", JsNum.num 222)] ∧
    chatMapStep [("A", JsNum.num 111)] "   " = [("A", JsNum.num 111)] ∧
    chatMapStep [("A", JsNum.num 111)] " nocolon " = [("A", JsNum.num 111)] :=
  ⟨parseChatMap_example_and_skip.1,
   parseChatMap_example_and_skip.2 _ _ (by decide),
   parseChatMap_example_and_skip.2 _ _ (by decide)⟩

/-- C7: the chat sender throws exactly when the transport-level response is
not successful (status outside 200–299) or the body's ok field is not
literally true; the error message embeds the HTTP status and the
provider-supplied description (the status text standing in when the
description is absent or empty, both being falsy to the JavaScript ||);
otherwise it returns the parsed response body. -/
theorem telegramSendText_failure_spec (resp : TgResponse) :
    ((∃ e, telegramSendText resp = .error e) ↔
      (respOk resp = false ∨
        (resp.body.getD ⟨none, none⟩).ok ≠ some true)) ∧
    (∀ e, telegramSendText resp = .error e →
      e = "Telegram failed: " ++ toString resp.status ++ " " ++ descOrStatusText resp) ∧
    (respOk resp = true → (resp.body.getD ⟨none, none⟩).ok = some true →
      telegramSendText resp = .ok (resp.body.getD ⟨none, none⟩)) := by
  have heq : telegramSendText resp =
      if (!(respOk resp) || (resp.body.getD ⟨none, none⟩).ok != some true) = true then
        .error ("Telegram failed: " ++ toString resp.status ++ " " ++ descOrStatusText resp)
      else
        .ok (resp.body.getD ⟨none, none⟩) := rfl
  by_cases hc : (!(respOk resp) || (resp.body.getD ⟨none, none⟩).ok != some true) = true
  · rw [heq, if_pos hc]
    have hc' : respOk resp = false ∨ ¬(resp.body.getD ⟨none, none⟩).ok = some true := by
      simpa [Bool.or_eq_true, Bool.not_eq_true', bne_iff_ne] using hc
    refine ⟨⟨fun _ => hc', fun _ => ⟨_, rfl⟩⟩, ?_, ?_⟩
    · intro e he
      injection he with h
      exact h.symm
    · intro h1 h2
      rcases hc' with hcc | hcc
      · rw [h1] at hcc
        exact Bool.noConfusion hcc
      · exact absurd h2 hcc
  · rw [heq, if_neg hc]
    rw [Bool.or_eq_true, Bool.not_eq_true', bne_iff_ne] at hc
    push_neg at hc
    obtain ⟨h1, h2⟩ := hc
    have h1' : respOk resp = true := by
      cases hr : respOk resp
      · exact absurd hr h1
      · rfl
    refine ⟨?_, ?_, fun _ _ => rfl⟩
    · constructor
      · rintro ⟨e, he⟩
        exact Except.noConfusion he
      · intro h
        rcases h with h | h
        · rw [h1'] at h
          exact Bool.noConfusion h
        · exact absurd h2 h
    · intro e he
      exact Except.noConfusion he

/-- Witness for C7: an HTTP 404 with an ok:false body and no description
throws with the status text; an HTTP 200 with ok:true returns the body. -/
theorem telegramSendText_failure_spec_witness :
    telegramSendText ⟨200, "OK", some ⟨some true, none⟩⟩ = .ok ⟨some true, none⟩ ∧
    "Telegram failed: 404 Not Found" =
      "Telegram failed: " ++ toString (404 : Nat) ++ " " ++
        descOrStatusText ⟨404, "Not Found", some ⟨some false, none⟩⟩ :=
  ⟨(telegramSendText_failure_spec ⟨200, "OK", some ⟨some true, none⟩⟩).2.2
      (by decide) (by decide),
   (telegramSendText_failure_spec ⟨404, "Not Found", some ⟨some false, none⟩⟩).2.1
      "Telegram failed: 404 Not Found" (by rfl)⟩

/-- C8: transport construction throws "SMTP env missing" exactly when the
SMTP host, user or password is missing (unset or empty, both falsy to the
JavaScript !); and the check is performed on every send call: whenever
construction fails, sendGuestEmail fails the same way for every argument,
rather than the check having run once at process start. -/
theorem createTransport_env_check (env : SmtpEnv) :
    ((∃ e, createTransport env = .error e) ↔
      (strTruthy env.smtpHost = false ∨ strTruthy env.smtpUser = false ∨
        strTruthy env.smtpPass = false)) ∧
    (∀ e args, createTransport env = .error e →
      sendGuestEmail env args = .error e) := by
  constructor
  · by_cases hc : (!(strTruthy env.smtpHost) || !(strTruthy env.smtpUser) ||
        !(strTruthy env.smtpPass)) = true
    · have herr : createTransport env = .error "SMTP env missing" := by
        unfold createTransport
        rw [if_pos hc]
      simp only [Bool.or_eq_true, Bool.not_eq_true'] at hc
      exact ⟨fun _ => by tauto, fun _ => ⟨_, herr⟩⟩
    · constructor
      · rintro ⟨e, he⟩
        unfold createTransport at he
        rw [if_neg hc] at he
        exact Except.noConfusion he
      · intro h
        exfalso
        apply hc
        simp only [Bool.or_eq_true, Bool.not_eq_true']
        tauto
  · intro e args h
    unfold sendGuestEmail
    rw [h]

/-- Witness for C8: with no SMTP host configured, every send call fails
with "SMTP env missing". -/
theorem createTransport_env_check_witness :
    sendGuestEmail ⟨none, none, some "user", some "pass", none⟩
        ⟨some "jane@example.com", none, none, none, none, none, none, none, none⟩ =
      .error "SMTP env missing" :=
  (createTransport_env_check ⟨none, none, some "user", some "pass", none⟩).2
    "SMTP env missing"
    ⟨some "jane@example.com", none, none, none, none, none, none, none, none⟩
    rfl

/-- C9: a successfully constructed transport has port 587 when no port is
configured (unset or empty), the numeric value of the configured port
otherwise, and is secure exactly when that port equals 465. -/
theorem createTransport_port_secure (env : SmtpEnv) (t : Transport)
    (h : createTransport env = .ok t) :
    ((env.smtpPort = none ∨ env.smtpPort = some "") → t.port = JsNum.num 587) ∧
    (∀ s, env.smtpPort = some s → s ≠ "" → t.port = jsNumber s) ∧
    (t.secure = true ↔ t.port = JsNum.num 465) := by
  unfold createTransport at h
  split at h
  · exact Except.noConfusion h
  · rw [Except.ok.injEq] at h
    subst h
    refine ⟨?_, ?_, ?_⟩
    · rintro (hp | hp) <;> simp [smtpPortNum, hp]
    · intro s hp hs
      simp [smtpPortNum, hp, hs]
    · exact decide_eq_true_iff

/-- Witness for C9: host/user/pass set, port unset: the transport has port
587 and is not secure. -/
theorem createTransport_port_secure_witness :
    (({ host := "smtp.example.com", port := JsNum.num 587, secure := false,
        authUser := "user", authPass := "pass" } : Transport).port = JsNum.num 587) :=
  (createTransport_port_secure
      ⟨some "smtp.example.com", none, some "user", some "pass", none⟩ _ rfl).1
    (Or.inl rfl)

/-- C10: for every validated booking, the message the handler's
sendGuestEmail call hands to the SMTP transport has no subject, html or
text (the handler passes {to, guestName, propertyCode, roomId, checkIn,
checkOut} while the sender destructures only {to, subject, html, text}),
while the to address is the guest's email and the from address is
populated from configuration — the booking details never reach the email
content. -/
theorem sendGuestEmail_handler_fields (env : SmtpEnv) (b : Booking)
    (m : MailMessage) (h : sendGuestEmail env (bookingEmailArgs b) = .ok m) :
    m.subject = none ∧ m.html = none ∧ m.text = none ∧
    m.toAddr = some b.email ∧ m.fromAddr.isSome = true := by
  unfold sendGuestEmail at h
  split at h
  · exact Except.noConfusion h
  · rename_i tr htr
    rw [Except.ok.injEq] at h
    subst h
    refine ⟨rfl, rfl, rfl, rfl, ?_⟩
    have hu : strTruthy env.smtpUser = true := by
      unfold createTransport at htr
      split at htr
      · exact Except.noConfusion htr
      · rename_i hguard
        simp only [Bool.or_eq_true, Bool.not_eq_true', not_or] at hguard
        cases hb : strTruthy env.smtpUser
        · exact absurd hb hguard.1.2
        · rfl
    show (smtpFromAddr env).isSome = true
    unfold smtpFromAddr
    by_cases hf : strTruthy env.smtpFrom = true
    · rw [if_pos hf]
      cases henv : env.smtpFrom
      · rw [henv] at hf
        simp [strTruthy] at hf
      · rfl
    · rw [if_neg hf]
      cases henv : env.smtpUser
      · rw [henv] at hu
        simp [strTruthy] at hu
      · rfl

/-- Witness for C10: a concrete booking's email carries only from and to. -/
theorem sendGuestEmail_handler_fields_witness :
    ({ fromAddr := some "user", toAddr := some "jane@example.com",
       subject := none, html := none, text := none } : MailMessage).subject = none ∧
    ({ fromAddr := some "user", toAddr := some "jane@example.com",
       subject := none, html := none, text := none } : MailMessage).html = none ∧
    ({ fromAddr := some "user", toAddr := some "jane@example.com",
       subject := none, html := none, text := none } : MailMessage).text = none ∧
    ({ fromAddr := some "user", toAddr := some "jane@example.com",
       subject := none, html := none, text := none } : MailMessage).toAddr =
      some ("jane@example.com") ∧
    ({ fromAddr := some "user", toAddr := some "jane@example.com",
       subject := none, html := none, text := none } : MailMessage).fromAddr.isSome = true :=
  sendGuestEmail_handler_fields
    ⟨some "smtp.example.com", none, some "user", some "pass", none⟩
    ⟨"B2X", "101", "Jane Doe", "+15551234567", "jane@example.com",
      "2024-06-01", "2024-06-05", ""⟩
    { fromAddr := some "user", toAddr := some "jane@example.com",
      subject := none, html := none, text := none }
    rfl

end HotelBooking
